import Mathlib

/-! # MiniBit proxy plugins: backend server switch and lobby command

A shallow embedding of the two Gate plugins of the repository:

* `gate/plugins/backendserverswitch/batckendserverswitch.go` — `plugin.onPluginMessage`
* `gate/plugins/lobbycommand/lobbycommand.go` — the executor of the `lobby` command

The proxy runtime (player directory, server registry, message delivery) is external to
the repository and is taken as a read-only record of lookup functions. The observable
behaviour of a handler is the list of calls it makes on the runtime that have an
effect (`SendMessage`, `CreateConnectionRequest(..).ConnectWithIndication(..)`) together
with the way it ends: a normal return (with its return value) or a Go runtime panic.
-/

namespace MiniBit

/-! ## Go values -/

/-- A Go `byte`. -/
abbrev Byte := UInt8

/-- A Go `[]byte`; also a Go `string`, which is an immutable sequence of bytes. -/
abbrev Bytes := List Byte

/-- The conversion of a string literal of the source to its bytes (UTF-8). -/
def lit (s : String) : Bytes := s.toUTF8.data.toList

/-! ## Standard library: `bytes.Split` and `strconv.Atoi` -/

/-- Go `bytes.Split(s, sep)` for a separator `sep` of exactly one byte: the subslices
of `s` between the occurrences of the separator. The result always has one element
more than `s` has separators; in particular it is `[[]]` for the empty `s`. -/
def bytesSplit (sep : Byte) : Bytes → List Bytes
  | [] => [[]]
  | b :: rest =>
    if b = sep then [] :: bytesSplit sep rest
    else
      match bytesSplit sep rest with
      | [] => [[b]]
      | f :: fs => (b :: f) :: fs

deriving instance DecidableEq for Except

/-- The two errors of Go `strconv`: `ErrSyntax` and `ErrRange`. -/
inductive NumError where
  | errSyntax
  | errRange
  deriving DecidableEq, Repr

/-- The largest `uint64`. -/
def maxUint64 : Nat := 2 ^ 64 - 1

/-- The digit loop of Go `strconv.ParseUint(s, 10, 64)`: every byte has to be one of
`'0'..'9'`; the value is accumulated in `n`, and an overflow of 64 bits ends the
loop at once with `ErrRange`. -/
def parseUintLoop : Bytes → Nat → Except NumError Nat
  | [], n => .ok n
  | c :: cs, n =>
    if 48 ≤ c.toNat ∧ c.toNat ≤ 57 then
      if n ≥ maxUint64 / 10 + 1 then .error .errRange
      else
        let n1 := n * 10 + (c.toNat - 48)
        if n1 > maxUint64 then .error .errRange
        else parseUintLoop cs n1
    else .error .errSyntax

/-- Go `strconv.ParseUint(s, 10, 64)`. -/
def ParseUint (s : Bytes) : Except NumError Nat :=
  match s with
  | [] => .error .errSyntax
  | _ => parseUintLoop s 0

/-- Go `strconv.ParseInt(s, 10, 0)` where `int` has 64 bits: an optional sign `+` or
`-`, then the digits; the value has to fit in an `int64`. -/
def ParseInt (s : Bytes) : Except NumError Int :=
  match s with
  | [] => .error .errSyntax
  | c :: cs =>
    let neg : Bool := c = 45
    let body : Bytes := if c = 43 ∨ c = 45 then cs else s
    match ParseUint body with
    | .error e => .error e
    | .ok un =>
      if ¬ neg ∧ un ≥ 2 ^ 63 then .error .errRange
      else if neg ∧ un > 2 ^ 63 then .error .errRange
      else .ok (if neg then - (un : Int) else (un : Int))

/-- Go `strconv.Atoi(s)`: `ParseInt(s, 10, 0)` converted to `int` (its fast path for
short inputs computes the same result). -/
def Atoi (s : Bytes) : Except NumError Int := ParseInt s

/-! ## The proxy runtime, as far as the plugins use it -/

/-- Gate `ServerInfo`: the name and the address of a backend server. -/
structure ServerInfo where
  Name : Bytes
  Addr : Bytes
  deriving DecidableEq, Repr

/-- Gate `RegisteredServer`: the handle of a server registered with the proxy. -/
structure RegisteredServer where
  ServerInfo : ServerInfo
  deriving DecidableEq, Repr

/-- Gate `ServerConnection`: a connection of a player to a backend server. -/
structure ServerConnection where
  Server : RegisteredServer
  deriving DecidableEq, Repr

/-- Gate `Player`. `CurrentServer` is `none` when the Go method returns `nil` (the
player has no backend server connection). -/
structure Player where
  Username : Bytes
  CurrentServer : Option ServerConnection
  deriving DecidableEq, Repr

/-- The colour of a text component (`color.Red` is the only one the plugins use). -/
inductive Color where
  | Red
  deriving DecidableEq, Repr

/-- A `component.Text`: its content and the colour of its style, if one is set. -/
structure Text where
  Content : String
  Color : Option Color
  deriving DecidableEq, Repr

/-- The source of a command (`command.Context.Source`): a player, or another actor
such as the console. -/
inductive CommandSource where
  | player (p : Player)
  | console
  deriving DecidableEq, Repr

/-- The source of a plugin message (`PluginMessageEvent.Source()`): the connection
to a backend server, or a player (client). -/
inductive MessageSource where
  | serverConnection (c : ServerConnection)
  | player (p : Player)
  deriving DecidableEq, Repr

/-- Gate `PluginMessageEvent`: where the message comes from and its payload. -/
structure PluginMessageEvent where
  Source : MessageSource
  Data : Bytes
  deriving DecidableEq, Repr

/-- The state of the proxy that the plugins read. `PlayerByName` and `Server` are the
lookups of `proxy.Proxy` (`none` for Go `nil`); `SendMessage src msg` is the error
that `src.SendMessage(msg)` returns (`none` for a `nil` error). -/
structure Proxy where
  PlayerByName : Bytes → Option Player
  Server : Bytes → Option RegisteredServer
  SendMessage : CommandSource → Text → Option String

/-! ## Observable behaviour -/

/-- A call on the runtime with an effect. `connect player server` stands for
`player.CreateConnectionRequest(server).ConnectWithIndication(ctx)`; the server is
`none` when the Go argument is `nil`. -/
inductive Action where
  | sendMessage (recipient : CommandSource) (msg : Text)
  | connect (player : Player) (server : Option RegisteredServer)
  deriving DecidableEq, Repr

/-- The Go runtime panics that the plugins can raise. -/
inductive Panic where
  | indexOutOfRange (index : Nat) (length : Nat)
  | nilDereference
  deriving DecidableEq, Repr

/-- How a handler ends: it returns a value, or it panics. -/
inductive Status (α : Type) where
  | returned (value : α)
  | panicked (p : Panic)
  deriving DecidableEq, Repr

/-- A run of a handler: the actions it performed, in order, and how it ended. -/
structure Run (α : Type) where
  actions : List Action
  status : Status α
  deriving DecidableEq, Repr

/-- The run that does nothing and returns. -/
def noop : Run Unit := ⟨[], .returned ()⟩

/-! ## `backendserverswitch`: `plugin.onPluginMessage` -/

/-- The handler `plugin.onPluginMessage` of the backend server switch plugin. -/
def onPluginMessage (p : Proxy) (e : PluginMessageEvent) : Run Unit :=
  match e.Source with
  | .player _ => ⟨[], .returned ()⟩
  | .serverConnection _ =>
    let data := bytesSplit 0 e.Data
    match data[0]? with
    | none => ⟨[], .panicked (.indexOutOfRange 0 data.length)⟩
    | some d0 =>
      match Atoi d0 with
      | .error _ => ⟨[], .returned ()⟩
      | .ok msgType =>
        if msgType = 1 then
          match data[1]? with
          | none => ⟨[], .panicked (.indexOutOfRange 1 data.length)⟩
          | some username =>
            match p.PlayerByName username with
            | none => ⟨[], .returned ()⟩
            | some player =>
              let connection := player.CurrentServer
              match data[2]? with
              | none => ⟨[], .panicked (.indexOutOfRange 2 data.length)⟩
              | some newServerName =>
                let newServer := p.Server newServerName
                match connection with
                | none => ⟨[], .panicked .nilDereference⟩
                | some conn =>
                  if conn.Server.ServerInfo.Name = newServerName then
                    let msg : Text := ⟨"You're already in that server!", none⟩
                    match p.SendMessage (.player player) msg with
                    | some _ => ⟨[.sendMessage (.player player) msg], .returned ()⟩
                    | none => ⟨[.sendMessage (.player player) msg], .returned ()⟩
                  else
                    match newServer with
                    | some srv => ⟨[.connect player (some srv)], .returned ()⟩
                    | none =>
                      let msg : Text := ⟨"That server was not found!", none⟩
                      match p.SendMessage (.player player) msg with
                      | some _ => ⟨[.sendMessage (.player player) msg], .returned ()⟩
                      | none => ⟨[.sendMessage (.player player) msg], .returned ()⟩
        else ⟨[], .returned ()⟩

/-! ## `lobbycommand`: the executor of the `lobby` command -/

/-- The variable `lobby` of the lobby command plugin. -/
def lobby : Bytes := lit "lobby"

/-- The function that the lobby command plugin registers as the executor of the
command `lobby` (alias `l`); it returns an `error`, `none` for `nil`. -/
def lobbyCommand (p : Proxy) (source : CommandSource) : Run (Option String) :=
  match source with
  | .console =>
    let msg : Text := ⟨"This is a player only command!", some .Red⟩
    ⟨[.sendMessage source msg], .returned (p.SendMessage source msg)⟩
  | .player player =>
    match player.CurrentServer with
    | none => ⟨[], .panicked .nilDereference⟩
    | some conn =>
      if conn.Server.ServerInfo.Name = lobby then
        let msg : Text := ⟨"You're already in that server!", some .Red⟩
        ⟨[.sendMessage source msg], .returned (p.SendMessage source msg)⟩
      else
        ⟨[.connect player (p.Server lobby)], .returned none⟩

/-! ## Scenarios -/

/-- A registered server named `lobby`. -/
def lobbyServer : RegisteredServer := ⟨⟨lit "lobby", lit "127.0.0.1:25566"⟩⟩

/-- A registered server named `survival`. -/
def survivalServer : RegisteredServer := ⟨⟨lit "survival", lit "127.0.0.1:25567"⟩⟩

/-- The player `alice`, connected to `lobby`. -/
def alice : Player := ⟨lit "alice", some ⟨lobbyServer⟩⟩

/-- The player `bob`, connected to `survival`. -/
def bob : Player := ⟨lit "bob", some ⟨survivalServer⟩⟩

/-- A proxy with the servers `lobby` and `survival` and the players `alice` and `bob`;
every message is delivered. -/
def scenarioProxy : Proxy where
  PlayerByName := fun name =>
    if name = lit "alice" then some alice
    else if name = lit "bob" then some bob
    else none
  Server := fun name =>
    if name = lit "lobby" then some lobbyServer
    else if name = lit "survival" then some survivalServer
    else none
  SendMessage := fun _ _ => none

/-- The proxy of `scenarioProxy` without a server registered as `lobby`. -/
def noLobbyProxy : Proxy where
  PlayerByName := scenarioProxy.PlayerByName
  Server := fun name => if name = lit "survival" then some survivalServer else none
  SendMessage := fun _ _ => none

/-- The proxy of `scenarioProxy` where no message can be delivered: every
`SendMessage` returns an error. -/
def failingSendProxy : Proxy where
  PlayerByName := scenarioProxy.PlayerByName
  Server := scenarioProxy.Server
  SendMessage := fun _ _ => some "connection closed"

/-! ## Properties of the standard library model -/

/-- The result of `bytes.Split` is never empty: `data[0]` exists for every payload. -/
theorem bytesSplit_ne_nil (sep : Byte) (s : Bytes) : bytesSplit sep s ≠ [] := by
  cases s with
  | nil => simp [bytesSplit]
  | cons b rest =>
    unfold bytesSplit
    split
    · simp
    · split <;> simp

/-- Joining the fields of `bytes.Split` with the separator gives the input back. -/
theorem bytesSplit_intercalate (sep : Byte) (s : Bytes) :
    List.intercalate [sep] (bytesSplit sep s) = s := by
  induction s with
  | nil => simp [bytesSplit, List.intercalate]
  | cons b rest ih =>
    unfold bytesSplit
    by_cases hb : b = sep
    · simp only [hb, if_true]
      cases hr : bytesSplit sep rest with
      | nil => exact absurd hr (bytesSplit_ne_nil sep rest)
      | cons f fs =>
        rw [hr] at ih
        simp only [List.intercalate] at ih ⊢
        simp [ih]
    · simp only [hb, if_false]
      cases hr : bytesSplit sep rest with
      | nil => exact absurd hr (bytesSplit_ne_nil sep rest)
      | cons f fs =>
        rw [hr] at ih
        cases fs with
        | nil => simpa [List.intercalate] using ih
        | cons g gs =>
          simp only [List.intercalate] at ih ⊢
          simp only [List.intersperse, List.flatten, List.cons_append, List.append_assoc] at ih ⊢
          rw [ih]

/-- No field of `bytes.Split` contains the separator. -/
theorem bytesSplit_no_sep (sep : Byte) (s : Bytes) :
    ∀ f ∈ bytesSplit sep s, sep ∉ f := by
  induction s with
  | nil => simp [bytesSplit]
  | cons b rest ih =>
    unfold bytesSplit
    by_cases hb : b = sep
    · simp only [hb, if_true]
      intro f hf
      rcases List.mem_cons.mp hf with h | h
      · simp [h]
      · exact ih f h
    · simp only [hb, if_false]
      cases hr : bytesSplit sep rest with
      | nil => exact absurd hr (bytesSplit_ne_nil sep rest)
      | cons g gs =>
        rw [hr] at ih
        intro f hf
        rcases List.mem_cons.mp hf with h | h
        · subst h
          intro hmem
          rcases List.mem_cons.mp hmem with h1 | h1
          · exact hb h1.symm
          · exact ih g (List.mem_cons_self _ _) h1
        · exact ih f (List.mem_cons_of_mem _ h)

/-! ## `onPluginMessage`: messages from a backend server -/

/-- A type-1 message with at least 3 fields for a connected player who has no current
server (`CurrentServer()` is `nil`) panics at `connection.Server()`: the properties
below on the current server's name are about players that have one. -/
theorem onPluginMessage_no_current_server (p : Proxy) (c : ServerConnection)
    (data d0 username newServerName : Bytes) (rest : List Bytes) (player : Player)
    (hsplit : bytesSplit 0 data = d0 :: username :: newServerName :: rest)
    (hparse : Atoi d0 = .ok 1)
    (hplayer : p.PlayerByName username = some player)
    (hcurrent : player.CurrentServer = none) :
    onPluginMessage p ⟨.serverConnection c, data⟩ = ⟨[], .panicked .nilDereference⟩ := by
  simp [onPluginMessage, hsplit, hparse, hplayer, hcurrent]

/-- C8: a payload from a backend server whose field 0 (the first field of the split on
the byte 0x00) is not accepted by `strconv.Atoi` is dropped: the handler performs no
action and returns normally, whatever the proxy state is. -/
theorem onPluginMessage_not_a_number (p : Proxy) (c : ServerConnection) (data d0 : Bytes)
    (rest : List Bytes) (err : NumError)
    (hsplit : bytesSplit 0 data = d0 :: rest)
    (hparse : Atoi d0 = .error err) :
    onPluginMessage p ⟨.serverConnection c, data⟩ = noop := by
  simp [onPluginMessage, hsplit, hparse, noop]

/-- Witness of C8 at the empty payload, whose only field is the empty string. -/
theorem onPluginMessage_not_a_number_witness :
    bytesSplit 0 [] = [] :: [] ∧ Atoi [] = .error .errSyntax ∧
      onPluginMessage scenarioProxy ⟨.serverConnection ⟨survivalServer⟩, []⟩ = noop :=
  ⟨by decide, by decide,
    onPluginMessage_not_a_number scenarioProxy ⟨survivalServer⟩ [] [] [] .errSyntax
      (by decide) (by decide)⟩

/-- C9: a payload from a backend server whose field 0 parses to an integer other than 1
produces no action, for any number of fields; the handler returns normally. -/
theorem onPluginMessage_unknown_type (p : Proxy) (c : ServerConnection) (data d0 : Bytes)
    (rest : List Bytes) (msgType : Int)
    (hsplit : bytesSplit 0 data = d0 :: rest)
    (hparse : Atoi d0 = .ok msgType)
    (htype : msgType ≠ 1) :
    onPluginMessage p ⟨.serverConnection c, data⟩ = noop := by
  simp [onPluginMessage, hsplit, hparse, htype, noop]

/-- Witness of C9 at the payload `2`, which is the type field alone. -/
theorem onPluginMessage_unknown_type_witness :
    bytesSplit 0 (lit "2") = [lit "2"] ∧ Atoi (lit "2") = .ok 2 ∧ (2 : Int) ≠ 1 ∧
      onPluginMessage scenarioProxy ⟨.serverConnection ⟨survivalServer⟩, lit "2"⟩ = noop :=
  ⟨by decide, by decide, by decide,
    onPluginMessage_unknown_type scenarioProxy ⟨survivalServer⟩ (lit "2") (lit "2") [] 2
      (by decide) (by decide) (by decide)⟩

/-- C7: a type-1 message with at least 3 fields whose username is not the name of a
connected player is a complete no-op, whatever the target server name is and whether
or not it is registered. -/
theorem onPluginMessage_unknown_player (p : Proxy) (c : ServerConnection)
    (data d0 username newServerName : Bytes) (rest : List Bytes)
    (hsplit : bytesSplit 0 data = d0 :: username :: newServerName :: rest)
    (hparse : Atoi d0 = .ok 1)
    (hplayer : p.PlayerByName username = none) :
    onPluginMessage p ⟨.serverConnection c, data⟩ = noop := by
  simp [onPluginMessage, hsplit, hparse, hplayer, noop]

/-- Witness of C7: `ghost` is not connected and asks for `survival`. -/
theorem onPluginMessage_unknown_player_witness :
    bytesSplit 0 (lit "1\x00ghost\x00survival") = [lit "1", lit "ghost", lit "survival"] ∧
      Atoi (lit "1") = .ok 1 ∧ scenarioProxy.PlayerByName (lit "ghost") = none ∧
      onPluginMessage scenarioProxy
        ⟨.serverConnection ⟨lobbyServer⟩, lit "1\x00ghost\x00survival"⟩ = noop :=
  ⟨by decide, by decide, by decide,
    onPluginMessage_unknown_player scenarioProxy ⟨lobbyServer⟩ (lit "1\x00ghost\x00survival")
      (lit "1") (lit "ghost") (lit "survival") [] (by decide) (by decide) (by decide)⟩

/-- C2: a type-1 message with at least 3 fields, for a connected player, whose target
server name is equal, byte for byte, to the name of the player's current server: the
handler sends that player the one notification "You're already in that server!",
issues no connection request and returns, whether or not the name is registered. -/
theorem onPluginMessage_already_at_target (p : Proxy) (c : ServerConnection)
    (data d0 username newServerName : Bytes) (rest : List Bytes)
    (player : Player) (connection : ServerConnection)
    (hsplit : bytesSplit 0 data = d0 :: username :: newServerName :: rest)
    (hparse : Atoi d0 = .ok 1)
    (hplayer : p.PlayerByName username = some player)
    (hcurrent : player.CurrentServer = some connection)
    (hsame : connection.Server.ServerInfo.Name = newServerName) :
    onPluginMessage p ⟨.serverConnection c, data⟩ =
      ⟨[.sendMessage (.player player) ⟨"You're already in that server!", none⟩],
        .returned ()⟩ := by
  simp only [onPluginMessage, hsplit, hparse, hplayer, hcurrent, hsame, List.getElem?_cons_zero,
    List.getElem?_cons_succ, if_true]
  split <;> rfl

/-- Witness of C2: `alice` is on `lobby` and is asked to go to `lobby`. -/
theorem onPluginMessage_already_at_target_witness :
    bytesSplit 0 (lit "1\x00alice\x00lobby") = [lit "1", lit "alice", lit "lobby"] ∧
      Atoi (lit "1") = .ok 1 ∧ scenarioProxy.PlayerByName (lit "alice") = some alice ∧
      alice.CurrentServer = some ⟨lobbyServer⟩ ∧ lobbyServer.ServerInfo.Name = lit "lobby" ∧
      onPluginMessage scenarioProxy
          ⟨.serverConnection ⟨lobbyServer⟩, lit "1\x00alice\x00lobby"⟩ =
        ⟨[.sendMessage (.player alice) ⟨"You're already in that server!", none⟩],
          .returned ()⟩ :=
  ⟨by decide, by decide, by decide, by decide, by decide,
    onPluginMessage_already_at_target scenarioProxy ⟨lobbyServer⟩ (lit "1\x00alice\x00lobby")
      (lit "1") (lit "alice") (lit "lobby") [] alice ⟨lobbyServer⟩
      (by decide) (by decide) (by decide) (by decide) (by decide)⟩

/-- C3: a type-1 message with at least 3 fields, for a connected player, whose target
server name differs from the name of the player's current server and is the name of a
registered server: the handler creates and performs exactly one connection request,
for that player and that server handle, sends no notification and returns. -/
theorem onPluginMessage_migration_issued (p : Proxy) (c : ServerConnection)
    (data d0 username newServerName : Bytes) (rest : List Bytes)
    (player : Player) (connection : ServerConnection) (newServer : RegisteredServer)
    (hsplit : bytesSplit 0 data = d0 :: username :: newServerName :: rest)
    (hparse : Atoi d0 = .ok 1)
    (hplayer : p.PlayerByName username = some player)
    (hcurrent : player.CurrentServer = some connection)
    (hdiffer : connection.Server.ServerInfo.Name ≠ newServerName)
    (hserver : p.Server newServerName = some newServer) :
    onPluginMessage p ⟨.serverConnection c, data⟩ =
      ⟨[.connect player (some newServer)], .returned ()⟩ := by
  simp [onPluginMessage, hsplit, hparse, hplayer, hcurrent, hdiffer, hserver]

/-- Witness of C3: `alice` is on `lobby` and is asked to go to `survival`. -/
theorem onPluginMessage_migration_issued_witness :
    bytesSplit 0 (lit "1\x00alice\x00survival") = [lit "1", lit "alice", lit "survival"] ∧
      Atoi (lit "1") = .ok 1 ∧ scenarioProxy.PlayerByName (lit "alice") = some alice ∧
      alice.CurrentServer = some ⟨lobbyServer⟩ ∧
      lobbyServer.ServerInfo.Name ≠ lit "survival" ∧
      scenarioProxy.Server (lit "survival") = some survivalServer ∧
      onPluginMessage scenarioProxy
          ⟨.serverConnection ⟨lobbyServer⟩, lit "1\x00alice\x00survival"⟩ =
        ⟨[.connect alice (some survivalServer)], .returned ()⟩ :=
  ⟨by decide, by decide, by decide, by decide, by decide, by decide,
    onPluginMessage_migration_issued scenarioProxy ⟨lobbyServer⟩
      (lit "1\x00alice\x00survival") (lit "1") (lit "alice") (lit "survival") [] alice
      ⟨lobbyServer⟩ survivalServer
      (by decide) (by decide) (by decide) (by decide) (by decide) (by decide)⟩

/-- C4: a type-1 message with at least 3 fields, for a connected player, whose target
server name differs from the name of the player's current server and is the name of no
registered server: the handler sends that player the one notification "That server was
not found!", issues no connection request and returns. -/
theorem onPluginMessage_target_unknown (p : Proxy) (c : ServerConnection)
    (data d0 username newServerName : Bytes) (rest : List Bytes)
    (player : Player) (connection : ServerConnection)
    (hsplit : bytesSplit 0 data = d0 :: username :: newServerName :: rest)
    (hparse : Atoi d0 = .ok 1)
    (hplayer : p.PlayerByName username = some player)
    (hcurrent : player.CurrentServer = some connection)
    (hdiffer : connection.Server.ServerInfo.Name ≠ newServerName)
    (hserver : p.Server newServerName = none) :
    onPluginMessage p ⟨.serverConnection c, data⟩ =
      ⟨[.sendMessage (.player player) ⟨"That server was not found!", none⟩],
        .returned ()⟩ := by
  simp only [onPluginMessage, hsplit, hparse, hplayer, hcurrent, hdiffer, hserver,
    List.getElem?_cons_zero, List.getElem?_cons_succ, if_true, if_false]
  split <;> rfl

/-- Witness of C4: `alice` is on `lobby` and is asked to go to `atlantis`. -/
theorem onPluginMessage_target_unknown_witness :
    bytesSplit 0 (lit "1\x00alice\x00atlantis") = [lit "1", lit "alice", lit "atlantis"] ∧
      Atoi (lit "1") = .ok 1 ∧ scenarioProxy.PlayerByName (lit "alice") = some alice ∧
      alice.CurrentServer = some ⟨lobbyServer⟩ ∧
      lobbyServer.ServerInfo.Name ≠ lit "atlantis" ∧
      scenarioProxy.Server (lit "atlantis") = none ∧
      onPluginMessage scenarioProxy
          ⟨.serverConnection ⟨lobbyServer⟩, lit "1\x00alice\x00atlantis"⟩ =
        ⟨[.sendMessage (.player alice) ⟨"That server was not found!", none⟩],
          .returned ()⟩ :=
  ⟨by decide, by decide, by decide, by decide, by decide, by decide,
    onPluginMessage_target_unknown scenarioProxy ⟨lobbyServer⟩
      (lit "1\x00alice\x00atlantis") (lit "1") (lit "alice") (lit "atlantis") [] alice
      ⟨lobbyServer⟩
      (by decide) (by decide) (by decide) (by decide) (by decide) (by decide)⟩

/-- C10: a plugin message whose source is a player, not a backend server connection, is
a no-op for every payload and every proxy state. -/
theorem onPluginMessage_from_player (p : Proxy) (sender : Player) (data : Bytes) :
    onPluginMessage p ⟨.player sender, data⟩ = noop := by
  simp [onPluginMessage, noop]

/-- C1: a type-1 message from a backend server with fewer than 3 fields is not a no-op.
With the type field alone the handler panics at `data[1]`, for every proxy state; with
the type and the name of a connected player it panics at `data[2]`. -/
theorem onPluginMessage_too_few_fields_panics (p : Proxy) (c : ServerConnection) :
    onPluginMessage p ⟨.serverConnection c, lit "1"⟩ =
        ⟨[], .panicked (.indexOutOfRange 1 1)⟩ ∧
      onPluginMessage scenarioProxy ⟨.serverConnection c, lit "1\x00alice"⟩ =
        ⟨[], .panicked (.indexOutOfRange 2 2)⟩ := by
  constructor
  · have hsplit : bytesSplit 0 (lit "1") = [lit "1"] := by decide
    have hparse : Atoi (lit "1") = .ok 1 := by decide
    simp [onPluginMessage, hsplit, hparse]
  · have hsplit : bytesSplit 0 (lit "1\x00alice") = [lit "1", lit "alice"] := by decide
    have hparse : Atoi (lit "1") = .ok 1 := by decide
    have hplayer : scenarioProxy.PlayerByName (lit "alice") = some alice := by decide
    simp [onPluginMessage, hsplit, hparse, hplayer]

/-! ## The `lobby` command -/

/-- C5: `bob` is on `survival` and no server is registered as `lobby`: the executor
of the lobby command sends no notification; it creates and performs a connection
request for the `nil` server and returns a `nil` error. -/
theorem lobbyCommand_without_lobby_server :
    bob.CurrentServer = some ⟨survivalServer⟩ ∧ survivalServer.ServerInfo.Name ≠ lobby ∧
      noLobbyProxy.Server lobby = none ∧
      lobbyCommand noLobbyProxy (.player bob) = ⟨[.connect bob none], .returned none⟩ := by
  decide

/-- C6, as stated, fails for the lobby command: `alice` is on `lobby`, the notification
cannot be delivered, and the executor returns the error of `SendMessage`, not `nil`. -/
theorem lobbyCommand_send_error_not_swallowed :
    failingSendProxy.SendMessage (.player alice)
        ⟨"You're already in that server!", some .Red⟩ = some "connection closed" ∧
      lobbyCommand failingSendProxy (.player alice) =
        ⟨[.sendMessage (.player alice) ⟨"You're already in that server!", some .Red⟩],
          .returned (some "connection closed")⟩ ∧
      (lobbyCommand failingSendProxy (.player alice)).status ≠ .returned none := by
  decide

/-- C6, amended: a failure of `SendMessage` leads to no further action. For a backend
message whose outcome is a notification, `onPluginMessage` swallows whatever
`SendMessage` returns: the notification is its only action and it returns normally.
For a player who is on `lobby`, the executor of the lobby command sends its one
notification and returns to the command runtime exactly what that `SendMessage`
returned, so an error of the send is the error of the command. -/
theorem sendMessage_error_handling :
    (∀ (p : Proxy) (c : ServerConnection) (data d0 username newServerName : Bytes)
        (rest : List Bytes) (player : Player) (connection : ServerConnection),
        bytesSplit 0 data = d0 :: username :: newServerName :: rest →
        Atoi d0 = .ok 1 →
        p.PlayerByName username = some player →
        player.CurrentServer = some connection →
        (connection.Server.ServerInfo.Name = newServerName ∨ p.Server newServerName = none) →
        onPluginMessage p ⟨.serverConnection c, data⟩ =
          ⟨[.sendMessage (.player player)
              ⟨if connection.Server.ServerInfo.Name = newServerName
                then "You're already in that server!" else "That server was not found!",
                none⟩],
            .returned ()⟩) ∧
      (∀ (p : Proxy) (player : Player) (connection : ServerConnection),
        player.CurrentServer = some connection →
        connection.Server.ServerInfo.Name = lobby →
        lobbyCommand p (.player player) =
          ⟨[.sendMessage (.player player) ⟨"You're already in that server!", some .Red⟩],
            .returned
              (p.SendMessage (.player player)
                ⟨"You're already in that server!", some .Red⟩)⟩) := by
  constructor
  · intro p c data d0 username newServerName rest player connection
      hsplit hparse hplayer hcurrent hnotify
    by_cases hsame : connection.Server.ServerInfo.Name = newServerName
    · simp only [onPluginMessage, hsplit, hparse, hplayer, hcurrent, hsame,
        List.getElem?_cons_zero, List.getElem?_cons_succ, if_true]
      split <;> rfl
    · have hserver : p.Server newServerName = none := hnotify.resolve_left hsame
      simp only [onPluginMessage, hsplit, hparse, hplayer, hcurrent, hsame, hserver,
        List.getElem?_cons_zero, List.getElem?_cons_succ, if_true, if_false]
      split <;> rfl
  · intro p player connection hcurrent hlobby
    simp [lobbyCommand, hcurrent, hlobby]

/-- Witness of the amended C6: `alice` is on `lobby` and no message can be delivered.
Asked to go to `lobby` by a backend server, the handler returns normally; asked by her
own command, the executor returns the error of the send. -/
theorem sendMessage_error_handling_witness :
    failingSendProxy.SendMessage (.player alice)
        ⟨"You're already in that server!", some .Red⟩ = some "connection closed" ∧
      onPluginMessage failingSendProxy
          ⟨.serverConnection ⟨lobbyServer⟩, lit "1\x00alice\x00lobby"⟩ =
        ⟨[.sendMessage (.player alice) ⟨"You're already in that server!", none⟩],
          .returned ()⟩ ∧
      lobbyCommand failingSendProxy (.player alice) =
        ⟨[.sendMessage (.player alice) ⟨"You're already in that server!", some .Red⟩],
          .returned (some "connection closed")⟩ :=
  ⟨rfl,
    sendMessage_error_handling.1 failingSendProxy ⟨lobbyServer⟩
      (lit "1\x00alice\x00lobby") (lit "1") (lit "alice") (lit "lobby") [] alice
      ⟨lobbyServer⟩ (by decide) (by decide) (by decide) (by decide) (Or.inl (by decide)),
    sendMessage_error_handling.2 failingSendProxy alice ⟨lobbyServer⟩
      (by decide) (by decide)⟩

end MiniBit
